import Mathlib

/-!
Shallow embedding of the inventory-system backend's domain-rule layer:
the product rules (`ProductService`, `ProductRepository`, the mongoose
product schema) and the auth rules (`AuthService`, `UserRepository`).
Stores are lists of records; each fallible operation returns the store
as it stands when the operation finishes (normally or by throw),
paired with an `Except` result, mirroring the sequential await/throw
flow of the TypeScript source.
-/

namespace Inventory

/-- Embedding of JavaScript's `toUpperCase()` and of the mongoose
`uppercase: true` setter on the `sku` path. -/
def upper (s : String) : String := ⟨s.data.map Char.toUpper⟩

/-- Embedding of JavaScript's `toLowerCase()` (used by the user store's
email normalisation and by case-insensitive regex search). -/
def lower (s : String) : String := ⟨s.data.map Char.toLower⟩

/-- A product document as constrained by the mongoose schema in
`src/models/Product.ts`: `quantity` and `minStockLevel` carry the schema's
`min: 0` validators (enforced on every write via `runValidators`), so they
are naturals; `isActive` defaults to true; `sku` is stored upper-cased. -/
structure Product where
  id : String
  name : String
  description : Option String
  sku : String
  category : String
  price : Int
  quantity : Nat
  minStockLevel : Nat
  images : List String
  isActive : Bool
  userId : String
  createdAt : Nat
deriving DecidableEq, Repr

/-- The `stockStatus` virtual of `src/models/Product.ts`:
quantity 0 gives OUT_OF_STOCK, else quantity at or below the minimum
stock level gives LOW_STOCK, else IN_STOCK. -/
def stockStatus (p : Product) : String :=
  if p.quantity = 0 then "OUT_OF_STOCK"
  else if p.quantity ≤ p.minStockLevel then "LOW_STOCK"
  else "IN_STOCK"

/-- The `isLowStock` virtual of `src/models/Product.ts`. -/
def isLowStock (p : Product) : Bool := p.quantity ≤ p.minStockLevel

/-- Embedding of `BaseRepository.findById`: first document whose id matches. -/
def findById (store : List Product) (id : String) : Option Product :=
  store.find? (fun p => p.id == id)

/-- Embedding of `ProductRepository.findBySku`: `findOne({ sku: sku.toUpperCase() })` —
no `isActive` filter, so inactive products are matched too. -/
def findBySku (store : List Product) (sku : String) : Option Product :=
  store.find? (fun p => p.sku == upper sku)

/-- JavaScript truthiness of the optional `userId` string argument:
`undefined` and the empty string are falsy. -/
def truthy (s : Option String) : Bool :=
  match s with
  | none => false
  | some v => v != ""

/-- The ownership test of `ProductService.getProductById`:
`userId && product.userId.toString() !== userId`. -/
def scopeBlocks (userId : Option String) (owner : String) : Bool :=
  match userId with
  | none => false
  | some v => v != "" && owner != v

/-- Embedding of `ProductService.getProductById(productId, userId?)`: null when absent,
inactive, or (for a truthy scope) owned by a different user. -/
def getProductById (store : List Product) (productId : String)
    (userId : Option String) : Option Product :=
  match findById store productId with
  | none => none
  | some product =>
    if !product.isActive then none
    else if scopeBlocks userId product.userId then none
    else some product

/-- The body of a `createProduct` request (`CreateProductRequest` in
`src/types`): `images` is the only optional field used by the service. -/
structure CreateProductRequest where
  name : String
  description : Option String
  sku : String
  category : String
  price : Int
  quantity : Nat
  minStockLevel : Nat
  images : Option (List String)
deriving DecidableEq, Repr

/-- Embedding of `ProductService.createProduct(userId, productData)`: throws when
`findBySku` hits any existing product, else persists the document (the
schema upper-cases the SKU on save; `images: productData.images || []`).
The fresh document id and creation stamp are passed in explicitly. -/
def createProduct (store : List Product) (userId : String)
    (newId : String) (ts : Nat) (productData : CreateProductRequest) :
    List Product × Except String Product :=
  match findBySku store productData.sku with
  | some _ => (store, .error "Product with this SKU already exists")
  | none =>
    let product : Product :=
      { id := newId
        name := productData.name
        description := productData.description
        sku := upper productData.sku
        category := productData.category
        price := productData.price
        quantity := productData.quantity
        minStockLevel := productData.minStockLevel
        images := productData.images.getD []
        isActive := true
        userId := userId
        createdAt := ts }
    (store ++ [product], .ok product)

/-- A partial update as accepted by `UpdateProductRequest` plus the
`isActive` path that `deleteProduct` writes through the repository. -/
structure ProductUpdate where
  name : Option String := none
  description : Option String := none
  sku : Option String := none
  category : Option String := none
  price : Option Int := none
  quantity : Option Nat := none
  minStockLevel : Option Nat := none
  images : Option (List String) := none
  isActive : Option Bool := none
deriving DecidableEq, Repr

/-- Application of one partial update to one document, as
`findByIdAndUpdate` does (the schema's uppercase setter runs on `sku`). -/
def applyUpdate (p : Product) (u : ProductUpdate) : Product :=
  { p with
    name := u.name.getD p.name
    description := match u.description with
      | none => p.description
      | some d => some d
    sku := match u.sku with
      | none => p.sku
      | some s => upper s
    category := u.category.getD p.category
    price := u.price.getD p.price
    quantity := u.quantity.getD p.quantity
    minStockLevel := u.minStockLevel.getD p.minStockLevel
    images := u.images.getD p.images
    isActive := u.isActive.getD p.isActive }

/-- Embedding of `BaseRepository.update`: `findByIdAndUpdate(id, data, { new: true })` —
null when the id is absent, else the updated document. -/
def repoUpdate (store : List Product) (id : String) (u : ProductUpdate) :
    List Product × Option Product :=
  match findById store id with
  | none => (store, none)
  | some p =>
    (store.map (fun q => if q.id == id then applyUpdate q u else q),
     some (applyUpdate p u))

/-- Embedding of `ProductRepository.updateStock`: `findByIdAndUpdate(id, { quantity })`. -/
def repoUpdateStock (store : List Product) (id : String) (quantity : Nat) :
    List Product × Option Product :=
  match findById store id with
  | none => (store, none)
  | some p =>
    (store.map (fun q => if q.id == id then { q with quantity := quantity } else q),
     some { p with quantity := quantity })

/-- The partial update carried by a PUT request body
(`UpdateProductRequest extends Partial<CreateProductRequest>` — it has no
`isActive` field). -/
structure UpdateProductRequest where
  name : Option String := none
  description : Option String := none
  sku : Option String := none
  category : Option String := none
  price : Option Int := none
  quantity : Option Nat := none
  minStockLevel : Option Nat := none
  images : Option (List String) := none
deriving DecidableEq, Repr

/-- The repository-level update paths written by an
`UpdateProductRequest` (identity on every field it carries). -/
def UpdateProductRequest.toUpdate (u : UpdateProductRequest) : ProductUpdate :=
  { name := u.name, description := u.description, sku := u.sku
    category := u.category, price := u.price, quantity := u.quantity
    minStockLevel := u.minStockLevel, images := u.images }

/-- Embedding of `ProductService.updateProduct(productId, userId, updateData)`: scoped
lookup, then — only when `updateData.sku` is truthy and differs as an exact
string from the current SKU — a global duplicate check via `findBySku`,
then the partial update. -/
def updateProduct (store : List Product) (productId : String)
    (userId : String) (updateData : UpdateProductRequest) :
    List Product × Except String (Option Product) :=
  match getProductById store productId (some userId) with
  | none => (store, .error "Product not found or access denied")
  | some existingProduct =>
    let skuCheck : Bool :=
      match updateData.sku with
      | none => false
      | some s => s != "" && s != existingProduct.sku
    if skuCheck && (findBySku store (updateData.sku.getD "")).isSome then
      (store, .error "Product with this SKU already exists")
    else
      let r := repoUpdate store productId updateData.toUpdate
      (r.1, .ok r.2)

/-- Embedding of `ProductService.deleteProduct(productId, userId)`: scoped lookup, then
soft delete by writing `isActive: false` through the repository; returns
whether the repository reported an updated document. -/
def deleteProduct (store : List Product) (productId : String)
    (userId : String) : List Product × Except String Bool :=
  match getProductById store productId (some userId) with
  | none => (store, .error "Product not found or access denied")
  | some _ =>
    let r := repoUpdate store productId { isActive := some false }
    (r.1, .ok r.2.isSome)

/-- Embedding of `ProductService.updateStock(productId, quantity, userId?)`: rejects a
negative quantity, then scoped lookup, then sets the absolute quantity. -/
def updateStock (store : List Product) (productId : String)
    (quantity : Int) (userId : Option String) :
    List Product × Except String (Option Product) :=
  if quantity < 0 then (store, .error "Quantity cannot be negative")
  else
    match getProductById store productId userId with
    | none => (store, .error "Product not found or access denied")
    | some _ =>
      let r := repoUpdateStock store productId quantity.toNat
      (r.1, .ok r.2)

/-- Embedding of `ProductService.adjustStock(productId, adjustment, userId?)`: scoped
lookup, `newQuantity = current + adjustment`, throw when negative, else
delegate to `updateStock`. -/
def adjustStock (store : List Product) (productId : String)
    (adjustment : Int) (userId : Option String) :
    List Product × Except String (Option Product) :=
  match getProductById store productId userId with
  | none => (store, .error "Product not found or access denied")
  | some product =>
    let newQuantity : Int := (product.quantity : Int) + adjustment
    if newQuantity < 0 then
      (store, .error "Insufficient stock for this adjustment")
    else updateStock store productId newQuantity userId

/-- One entry of a bulk stock update: `{ productId, quantity }`. -/
structure StockUpdate where
  productId : String
  quantity : Int
deriving DecidableEq, Repr

/-- Embedding of `ProductService.bulkUpdateStock(updates, userId?)`: applies
`updateStock` to the entries sequentially; the first failure propagates,
leaving the store as the preceding successes left it. -/
def bulkUpdateStock (store : List Product) (updates : List StockUpdate)
    (userId : Option String) : List Product × Except String Unit :=
  match updates with
  | [] => (store, .ok ())
  | u :: rest =>
    match updateStock store u.productId u.quantity userId with
    | (s1, .error m) => (s1, .error m)
    | (s1, .ok _) => bulkUpdateStock s1 rest userId

/-- Embedding of `ProductRepository.findLowStock(userId?)`: active products, optionally
owner-scoped (JS truthiness on `userId`), with quantity at or below the
minimum stock level. -/
def findLowStock (store : List Product) (userId : Option String) :
    List Product :=
  store.filter (fun p =>
    p.isActive &&
    (match userId with
     | none => true
     | some u => if u == "" then true else p.userId == u) &&
    (p.quantity ≤ p.minStockLevel))

/-- Embedding of `ProductService.getLowStockProducts(userId?)`, which
delegates to the repository. -/
def getLowStockProducts (store : List Product) (userId : Option String) :
    List Product :=
  findLowStock store userId

/-- A search/pagination query (`ProductQuery` in `src/types`); absent
fields are `undefined` in the source. -/
structure ProductQuery where
  search : Option String := none
  category : Option String := none
  minPrice : Option Int := none
  maxPrice : Option Int := none
  inStock : Option Bool := none
  page : Option Nat := none
  limit : Option Nat := none
  sortBy : Option String := none
  sortOrder : Option String := none
deriving Repr

/-- Whether `needle` occurs as a contiguous run inside `hay`. -/
def charsStartWith : List Char → List Char → Bool
  | _, [] => true
  | [], _ :: _ => false
  | a :: as, b :: bs => a == b && charsStartWith as bs

/-- Contiguous containment of one character list in another. -/
def charsContain : List Char → List Char → Bool
  | [], needle => needle.isEmpty
  | a :: as, needle => charsStartWith (a :: as) needle || charsContain as needle

/-- The `$regex: search, $options: 'i'` test: case-insensitive substring
match (the query strings carry no regex metacharacters in this layer). -/
def containsCI (hay needle : String) : Bool :=
  charsContain (hay.data.map Char.toLower) (needle.data.map Char.toLower)

/-- The mongo filter built by `ProductRepository.searchProducts`:
`isActive: true` always; `search`/`category` apply when truthy;
`minPrice`/`maxPrice`/`inStock` apply when not `undefined`. -/
def matchesQuery (q : ProductQuery) (p : Product) : Bool :=
  p.isActive &&
  (match q.search with
   | none => true
   | some s =>
     if s == "" then true
     else
       containsCI p.name s ||
       (match p.description with
        | none => false
        | some d => containsCI d s) ||
       containsCI p.sku s) &&
  (match q.category with
   | none => true
   | some c => if c == "" then true else p.category == c) &&
  (match q.minPrice with
   | none => true
   | some m => m ≤ p.price) &&
  (match q.maxPrice with
   | none => true
   | some m => p.price ≤ m) &&
  (match q.inStock with
   | none => true
   | some true => 0 < p.quantity
   | some false => p.quantity == 0)

/-- Document order under one sort field; fields not recognised by the
schema compare equal (mongo sorts missing paths as nulls). -/
def fieldLe (field : String) (a b : Product) : Bool :=
  if field == "name" then a.name ≤ b.name
  else if field == "sku" then a.sku ≤ b.sku
  else if field == "category" then a.category ≤ b.category
  else if field == "price" then a.price ≤ b.price
  else if field == "quantity" then a.quantity ≤ b.quantity
  else if field == "minStockLevel" then a.minStockLevel ≤ b.minStockLevel
  else if field == "createdAt" then a.createdAt ≤ b.createdAt
  else true

/-- Insertion into a list sorted by `le`. -/
def insertSorted (le : Product → Product → Bool) (p : Product) :
    List Product → List Product
  | [] => [p]
  | q :: rest => if le p q then p :: q :: rest else q :: insertSorted le p rest

/-- Sorting of the matched documents by the requested order. -/
def sortProducts (le : Product → Product → Bool) :
    List Product → List Product
  | [] => []
  | p :: rest => insertSorted le p (sortProducts le rest)

/-- The paginated response envelope of `BaseRepository.findWithPagination`. -/
structure PaginatedResponse where
  data : List Product
  page : Nat
  limit : Nat
  total : Nat
  pages : Nat
  hasNext : Bool
  hasPrev : Bool
deriving Repr

/-- Embedding of `BaseRepository.findWithPagination(filter, { page, limit, sortBy,
sortOrder })`: sort, skip `(page-1)*limit`, take `limit`; `pages` is
`Math.ceil(total / limit)`. -/
def findWithPagination (store : List Product) (filter : Product → Bool)
    (page limit : Nat) (sortField sortOrder : String) : PaginatedResponse :=
  let matching := store.filter filter
  let le := if sortOrder == "asc" then fieldLe sortField
            else fun a b => fieldLe sortField b a
  let sorted := sortProducts le matching
  let total := matching.length
  let pages := (total + limit - 1) / limit
  { data := (sorted.drop ((page - 1) * limit)).take limit
    page := page
    limit := limit
    total := total
    pages := pages
    hasNext := decide (page < pages)
    hasPrev := decide (1 < page) }

/-- Embedding of `ProductRepository.searchProducts(query)` (also reached through
`ProductService.searchProducts` and `getAllProducts`): destructuring
defaults `page = 1`, `limit = 10`, `sortBy = 'createdAt'`,
`sortOrder = 'desc'`. -/
def searchProducts (store : List Product) (q : ProductQuery) :
    PaginatedResponse :=
  findWithPagination store (matchesQuery q) (q.page.getD 1) (q.limit.getD 10)
    (q.sortBy.getD "createdAt") (q.sortOrder.getD "desc")

/-- A user document (schema fields of the user model as used by
`AuthService` and `UserRepository`); `password` holds the stored hash. -/
structure User where
  id : String
  email : String
  password : String
  firstName : String
  lastName : String
  role : String
  isActive : Bool
  profileImage : Option String
  lastLoginAt : Option Nat
deriving DecidableEq, Repr

/-- A sanitized user as returned by `AuthService.sanitizeUser`: the
user object with the `password` property deleted (this record type has no
password field at all). -/
structure SafeUser where
  id : String
  email : String
  firstName : String
  lastName : String
  role : String
  isActive : Bool
  profileImage : Option String
  lastLoginAt : Option Nat
deriving DecidableEq, Repr

/-- Embedding of `AuthService.sanitizeUser`. -/
def sanitizeUser (u : User) : SafeUser :=
  { id := u.id, email := u.email, firstName := u.firstName
    lastName := u.lastName, role := u.role, isActive := u.isActive
    profileImage := u.profileImage, lastLoginAt := u.lastLoginAt }

/-- The payload `AuthService.generateToken` signs (`IJWTPayload`); the
signing itself is a black-box collaborator, so a token is identified with
its payload. -/
structure JWTPayload where
  userId : String
  email : String
  role : String
deriving DecidableEq, Repr

/-- Embedding of `AuthService.generateToken`. -/
def generateToken (u : User) : JWTPayload :=
  { userId := u.id, email := u.email, role := u.role }

/-- Embedding of the `AuthService` success value: `{ user: sanitized, token }`. -/
structure AuthResponse where
  user : SafeUser
  token : JWTPayload
deriving DecidableEq, Repr

/-- Embedding of `UserRepository.findByEmailWithPassword(email)`:
`findOne({ email: email.toLowerCase() })` with the password selected. -/
def findByEmailWithPassword (users : List User) (email : String) :
    Option User :=
  users.find? (fun u => u.email == lower email)

/-- Embedding of `UserRepository.updateLastLogin(userId)`: stamps `lastLoginAt` on the
document with that id; `now` is the clock reading. -/
def updateLastLogin (users : List User) (userId : String) (now : Nat) :
    List User × Option User :=
  match users.find? (fun u => u.id == userId) with
  | none => (users, none)
  | some u =>
    (users.map (fun v => if v.id == userId then { v with lastLoginAt := some now } else v),
     some { u with lastLoginAt := some now })

/-- Embedding of `AuthService.login(credentials)`: lookup by email, active check,
bcrypt comparison (`compare stored candidate`, a black-box collaborator
passed as a parameter), last-login stamp, then sanitized user + token.
Both the unknown-email throw and the wrong-password throw carry the same
message string. -/
def login (compare : String → String → Bool) (users : List User)
    (now : Nat) (email password : String) :
    List User × Except String AuthResponse :=
  match findByEmailWithPassword users email with
  | none => (users, .error "Invalid email or password")
  | some user =>
    if !user.isActive then
      (users, .error "Account is deactivated. Please contact support")
    else if !compare user.password password then
      (users, .error "Invalid email or password")
    else
      ((updateLastLogin users user.id now).1,
       .ok { user := sanitizeUser user, token := generateToken user })

/-- Embedding of `AuthService.changePassword(userId, currentPassword, newPassword)` as
written in the source: the lookup is `findByEmailWithPassword('')` — the
empty string, not any datum of the user identified by `userId` — while the
final write targets `userId`. `hash` is the store-layer hashing
collaborator. -/
def changePassword (compare : String → String → Bool)
    (hash : String → String) (users : List User) (userId : String)
    (currentPassword newPassword : String) :
    List User × Except String Unit :=
  match findByEmailWithPassword users "" with
  | none => (users, .error "User not found")
  | some user =>
    if !compare user.password currentPassword then
      (users, .error "Current password is incorrect")
    else
      (users.map (fun v => if v.id == userId then { v with password := hash newPassword } else v),
       .ok ())

/-! Concrete fixtures used to evaluate the operations on closed inputs. -/

/-- A sample active product: quantity 10, minimum stock level 5,
SKU stored upper-cased, owned by user `u1`. -/
def sampleP : Product where
  id := "p1"
  name := "Widget"
  description := none
  sku := "ABC-1"
  category := "tools"
  price := 5
  quantity := 10
  minStockLevel := 5
  images := []
  isActive := true
  userId := "u1"
  createdAt := 0

/-- A second sample product with an unrelated SKU, same owner. -/
def sampleQ : Product where
  id := "p2"
  name := "Gadget"
  description := none
  sku := "XYZ-9"
  category := "tools"
  price := 7
  quantity := 3
  minStockLevel := 5
  images := []
  isActive := true
  userId := "u1"
  createdAt := 1

/-- A sample create request whose SKU collides with `sampleP` up to case. -/
def sampleReq : CreateProductRequest where
  name := "Widget clone"
  description := none
  sku := "abc-1"
  category := "tools"
  price := 5
  quantity := 2
  minStockLevel := 5
  images := none

/-- A sample active user with a known stored hash. -/
def sampleUser : User where
  id := "u1"
  email := "a@x.com"
  password := "stored-hash"
  firstName := "Ada"
  lastName := "Lin"
  role := "user"
  isActive := true
  profileImage := none
  lastLoginAt := none

/-- A concrete stand-in for the bcrypt comparison: accepts exactly the
pair (stored hash of `sampleUser`, the plaintext `secret123`). -/
def sampleCompare (stored plain : String) : Bool :=
  stored == "stored-hash" && plain == "secret123"

/-! Helper lemmas about lookups, updates and membership. -/

/-- Updating every document with a given id through an id-preserving
function commutes with `findById`. -/
theorem findById_map_update (store : List Product) (pid : String)
    (g : Product → Product) (hg : ∀ r, (g r).id = r.id) :
    findById (store.map fun r => if r.id == pid then g r else r) pid
      = (findById store pid).map g := by
  induction store with
  | nil => rfl
  | cons a l ih =>
    rw [List.map_cons]
    unfold findById at ih ⊢
    by_cases h : (a.id == pid) = true
    · have hif : (if (a.id == pid) = true then g a else a) = g a := if_pos h
      have hga : ((g a).id == pid) = true := by rw [hg a]; exact h
      rw [hif, List.find?_cons, List.find?_cons, hga, h]
      rfl
    · have hif : (if (a.id == pid) = true then g a else a) = a := if_neg h
      have hb : (a.id == pid) = false := by simpa using h
      rw [hif, List.find?_cons, List.find?_cons, hb]
      exact ih

/-- Inversion of a successful scoped lookup. -/
theorem getProductById_inv {store : List Product} {pid : String}
    {scope : Option String} {p : Product}
    (h : getProductById store pid scope = some p) :
    findById store pid = some p ∧ p.isActive = true ∧
      scopeBlocks scope p.userId = false := by
  unfold getProductById at h
  cases hf : findById store pid with
  | none => rw [hf] at h; cases h
  | some q =>
    rw [hf] at h
    cases ha : q.isActive with
    | false => simp [ha] at h
    | true =>
      cases hs : scopeBlocks scope q.userId with
      | true => simp [ha, hs] at h
      | false =>
        have h2 : q = p := by simpa [ha, hs] using h
        subst h2
        exact ⟨rfl, ha, hs⟩

/-- Membership in an insertion step. -/
theorem mem_insertSorted {le : Product → Product → Bool} {p x : Product}
    {l : List Product} : x ∈ insertSorted le p l ↔ x = p ∨ x ∈ l := by
  induction l with
  | nil => simp [insertSorted]
  | cons a l ih =>
    by_cases h : le p a
    · simp [insertSorted, h]
    · simp [insertSorted, h, ih]
      tauto

/-- Sorting does not change membership. -/
theorem mem_sortProducts {le : Product → Product → Bool} {x : Product}
    {l : List Product} : x ∈ sortProducts le l ↔ x ∈ l := by
  induction l with
  | nil => simp [sortProducts]
  | cons a l ih =>
    simp [sortProducts, mem_insertSorted, ih]

/-- Every document in a search-result page is in the store and matches
the filter. -/
theorem mem_searchProducts {store : List Product} {q : ProductQuery}
    {x : Product} (h : x ∈ (searchProducts store q).data) :
    x ∈ store ∧ matchesQuery q x = true := by
  unfold searchProducts findWithPagination at h
  simp only at h
  have h1 := List.drop_subset _ _ (List.take_subset _ _ h)
  have h2 : x ∈ store.filter (matchesQuery q) := mem_sortProducts.mp h1
  exact ⟨(List.mem_filter.mp h2).1, (List.mem_filter.mp h2).2⟩

/-- A document matching a search query is active. -/
theorem matchesQuery_isActive {q : ProductQuery} {x : Product}
    (h : matchesQuery q x = true) : x.isActive = true := by
  unfold matchesQuery at h
  simp only [Bool.and_eq_true] at h
  exact h.1.1.1.1.1

/-- An `updateStock` that reports an error leaves the store exactly as it
was. -/
theorem updateStock_error_store {store : List Product} {pid : String}
    {quantity : Int} {scope : Option String} {m : String}
    (h : (updateStock store pid quantity scope).2 = .error m) :
    updateStock store pid quantity scope = (store, .error m) := by
  unfold updateStock at h ⊢
  by_cases hq : quantity < 0
  · rw [if_pos hq] at h ⊢
    dsimp only at h
    rw [h]
  · rw [if_neg hq] at h ⊢
    cases hg : getProductById store pid scope with
    | none =>
      rw [hg] at h
      dsimp only at h ⊢
      rw [h]
    | some p =>
      rw [hg] at h
      dsimp only at h
      exact Except.noConfusion h

/-- An active document in a store whose id-matching documents were all
deactivated cannot carry the deactivated id. -/
theorem mem_deactivated_ne {store : List Product} {pid : String} {x : Product}
    (hmem : x ∈ store.map
      (fun q => if q.id == pid then { q with isActive := false } else q))
    (hact : x.isActive = true) : x.id ≠ pid := by
  intro hxid
  obtain ⟨y, hy, hxy⟩ := List.mem_map.mp hmem
  by_cases hyid : (y.id == pid) = true
  · rw [if_pos hyid] at hxy
    rw [← hxy] at hact
    simp at hact
  · rw [if_neg hyid] at hxy
    subst hxy
    exact hyid (beq_iff_eq.mpr hxid)

/-! Claim theorems. -/

/-- C4: for every product p, stockStatus = OUT_OF_STOCK iff p.quantity = 0;
stockStatus = LOW_STOCK iff 0 < p.quantity and p.quantity ≤ p.minStockLevel;
in every other case stockStatus = IN_STOCK. -/
theorem c4_stockStatus (p : Product) :
    (stockStatus p = "OUT_OF_STOCK" ↔ p.quantity = 0) ∧
    (stockStatus p = "LOW_STOCK" ↔
      0 < p.quantity ∧ p.quantity ≤ p.minStockLevel) ∧
    (¬ (p.quantity = 0 ∨ (0 < p.quantity ∧ p.quantity ≤ p.minStockLevel)) →
      stockStatus p = "IN_STOCK") := by
  unfold stockStatus
  by_cases h0 : p.quantity = 0 <;> by_cases h1 : p.quantity ≤ p.minStockLevel <;>
    (simp [h0, h1]; all_goals omega)

/-- Witness for C4: a product with quantity 10 above its minimum stock
level 5 is classified IN_STOCK by the third clause. -/
theorem c4_stockStatus_witness :
    stockStatus sampleP = "IN_STOCK" ∧
    ¬ (sampleP.quantity = 0 ∨
        (0 < sampleP.quantity ∧ sampleP.quantity ≤ sampleP.minStockLevel)) :=
  ⟨(c4_stockStatus sampleP).2.2 (by decide), by decide⟩

/-- C10: an empty-string scope behaves exactly like an absent scope in
getProductById — the ownership check is skipped for both, which is what
the controllers' admin bypass (passing the empty string) relies on. -/
theorem c10_emptyScope_eq_noScope (store : List Product) (pid : String) :
    getProductById store pid (some "") = getProductById store pid none := by
  unfold getProductById
  cases findById store pid with
  | none => rfl
  | some p =>
    have hsb : scopeBlocks (some "") p.userId = scopeBlocks none p.userId := by
      simp [scopeBlocks]
    dsimp only
    rw [hsb]

/-- C3: under a non-admin scope, getProductById returns none both for a
truly absent id and for an existing product that is inactive or owned by a
different user — the identical value, indistinguishable to the caller. -/
theorem c3_ownershipScope (store : List Product) (pid : String) (s : String)
    (hs : s ≠ "") :
    (findById store pid = none → getProductById store pid (some s) = none) ∧
    (∀ p, findById store pid = some p →
      p.isActive = false ∨ p.userId ≠ s →
      getProductById store pid (some s) = none) := by
  constructor
  · intro h
    unfold getProductById
    rw [h]
  · intro p hp hcase
    unfold getProductById
    rw [hp]
    rcases hcase with h | h
    · simp [h]
    · cases ha : p.isActive with
      | false => simp [ha]
      | true =>
        have hb : scopeBlocks (some s) p.userId = true := by
          simp [scopeBlocks, hs, h]
        simp [ha, hb]

/-- Witness for C3: user u2 sees none both for u1's product p1 and for an
absent id. -/
theorem c3_ownershipScope_witness :
    getProductById [sampleP] "p1" (some "u2") = none ∧
    getProductById [sampleP] "zzz" (some "u2") = none :=
  ⟨(c3_ownershipScope [sampleP] "p1" "u2" (by decide)).2 sampleP rfl
      (Or.inr (by decide)),
   (c3_ownershipScope [sampleP] "zzz" "u2" (by decide)).1 rfl⟩

/-- C1: for a product reachable by the scoped lookup with current
quantity q, adjustStock fails with the InsufficientStock message exactly
when q + delta < 0, leaving the store (hence the quantity, still q)
unchanged; when q + delta ≥ 0 it sets the quantity to q + delta through
updateStock. -/
theorem c1_adjustStock (store : List Product) (pid : String) (delta : Int)
    (scope : Option String) (p : Product)
    (h : getProductById store pid scope = some p) :
    ((p.quantity : Int) + delta < 0 →
      adjustStock store pid delta scope =
        (store, .error "Insufficient stock for this adjustment") ∧
      findById store pid = some p) ∧
    (0 ≤ (p.quantity : Int) + delta →
      adjustStock store pid delta scope =
        (store.map (fun q => if q.id == pid then
            { q with quantity := ((p.quantity : Int) + delta).toNat } else q),
         .ok (some { p with
            quantity := ((p.quantity : Int) + delta).toNat }))) := by
  obtain ⟨hf, ha, hs⟩ := getProductById_inv h
  constructor
  · intro hneg
    refine ⟨?_, hf⟩
    unfold adjustStock
    rw [h]
    dsimp only
    rw [if_pos hneg]
  · intro hpos
    have hnn : ¬ ((p.quantity : Int) + delta < 0) := not_lt.mpr hpos
    unfold adjustStock
    rw [h]
    dsimp only
    rw [if_neg hnn]
    unfold updateStock
    rw [if_neg hnn, h]
    dsimp only
    unfold repoUpdateStock
    rw [hf]

/-- Witness for C1: on sampleP (quantity 10) an adjustment of -100 fails
with the insufficient-stock error and the store is untouched; an
adjustment of -3 succeeds and stores quantity 7. -/
theorem c1_adjustStock_witness :
    adjustStock [sampleP] "p1" (-100) (some "u1") =
      ([sampleP], .error "Insufficient stock for this adjustment") ∧
    adjustStock [sampleP] "p1" (-3) (some "u1") =
      ([{ sampleP with quantity := 7 }],
       .ok (some { sampleP with quantity := 7 })) :=
  ⟨((c1_adjustStock [sampleP] "p1" (-100) (some "u1") sampleP rfl).1
      (by decide)).1,
   (c1_adjustStock [sampleP] "p1" (-3) (some "u1") sampleP rfl).2 (by decide)⟩

/-- C2: when every stored SKU is upper-cased (as the schema guarantees),
createProduct fails with the duplicate-SKU message exactly when some
stored product — active or inactive, no filter applies — has an SKU equal
to the request's SKU up to letter case; otherwise it appends a document
owned by the caller whose images default to the empty list. -/
theorem c2_createProduct (store : List Product) (ownerId newId : String)
    (ts : Nat) (data : CreateProductRequest)
    (hinv : ∀ p ∈ store, p.sku = upper p.sku) :
    ((∃ p ∈ store, upper p.sku = upper data.sku) →
      createProduct store ownerId newId ts data =
        (store, .error "Product with this SKU already exists")) ∧
    ((∀ p ∈ store, upper p.sku ≠ upper data.sku) →
      ∃ newP, createProduct store ownerId newId ts data =
          (store ++ [newP], .ok newP) ∧
        newP.userId = ownerId ∧ newP.images = data.images.getD [] ∧
        newP.sku = upper data.sku ∧ newP.isActive = true) := by
  constructor
  · rintro ⟨p, hp, hsk⟩
    have hmem : p.sku = upper data.sku := by rw [hinv p hp]; exact hsk
    have hsome : (findBySku store data.sku).isSome := by
      rw [findBySku, List.find?_isSome]
      exact ⟨p, hp, by simp [hmem]⟩
    unfold createProduct
    cases hfind : findBySku store data.sku with
    | none => rw [hfind] at hsome; simp at hsome
    | some q => rfl
  · intro hno
    have hnone : findBySku store data.sku = none := by
      rw [findBySku, List.find?_eq_none]
      intro x hx
      simp only [beq_iff_eq]
      intro hcon
      exact hno x hx (by rw [← hcon, ← hinv x hx])
    unfold createProduct
    rw [hnone]
    exact ⟨_, rfl, rfl, rfl, rfl, rfl⟩

/-- Witness for C2: with sampleP (SKU "ABC-1") in the store, a request
with SKU "abc-1" is rejected; with an empty store it is persisted with
owner u2 and empty images. -/
theorem c2_createProduct_witness :
    createProduct [sampleP] "u2" "p9" 3 sampleReq =
      ([sampleP], .error "Product with this SKU already exists") ∧
    ∃ newP, createProduct [] "u2" "p9" 3 sampleReq =
        ([newP], .ok newP) ∧
      newP.userId = "u2" ∧ newP.images = [] :=
  ⟨(c2_createProduct [sampleP] "u2" "p9" 3 sampleReq
      (by intro p hp; simp at hp; subst hp; rfl)).1
      ⟨sampleP, by simp, by decide⟩,
   by
    obtain ⟨newP, heq, ho, hi, _, _⟩ :=
      (c2_createProduct [] "u2" "p9" 3 sampleReq (by simp)).2 (by simp)
    exact ⟨newP, by simpa using heq, ho, hi⟩⟩

/-- C5: after a successful deleteProduct, the product is excluded from
searchProducts, getLowStockProducts, and getProductById (under every
scope, admin and non-admin alike), yet its SKU stays reserved: a
createProduct with the same SKU in any letter case still fails with the
duplicate-SKU error. -/
theorem c5_softDelete (store : List Product) (pid uid : String) (p : Product)
    (hp : getProductById store pid (some uid) = some p)
    (hinv : ∀ q ∈ store, q.sku = upper q.sku) :
    (deleteProduct store pid uid).2 = .ok true ∧
    (∀ query x, x ∈ (searchProducts (deleteProduct store pid uid).1 query).data →
      x.id ≠ pid) ∧
    (∀ sc x, x ∈ getLowStockProducts (deleteProduct store pid uid).1 sc →
      x.id ≠ pid) ∧
    (∀ sc, getProductById (deleteProduct store pid uid).1 pid sc = none) ∧
    (∀ ownerId newId ts (data : CreateProductRequest),
      upper data.sku = upper p.sku →
      createProduct (deleteProduct store pid uid).1 ownerId newId ts data =
        ((deleteProduct store pid uid).1,
         .error "Product with this SKU already exists")) := by
  obtain ⟨hf, ha, hs⟩ := getProductById_inv hp
  have hdel : deleteProduct store pid uid =
      (store.map (fun q => if q.id == pid then { q with isActive := false } else q),
       .ok true) := by
    unfold deleteProduct
    rw [hp]
    dsimp only
    unfold repoUpdate
    rw [hf]
    rfl
  refine ⟨by rw [hdel], ?_, ?_, ?_, ?_⟩
  · intro query x hx
    rw [hdel] at hx
    dsimp only at hx
    obtain ⟨hmem, hmatch⟩ := mem_searchProducts hx
    exact mem_deactivated_ne hmem (matchesQuery_isActive hmatch)
  · intro sc x hx
    rw [hdel] at hx
    dsimp only at hx
    unfold getLowStockProducts findLowStock at hx
    have hmem := (List.mem_filter.mp hx).1
    have hcond := (List.mem_filter.mp hx).2
    have hact : x.isActive = true := by
      simp only [Bool.and_eq_true] at hcond
      exact hcond.1.1
    exact mem_deactivated_ne hmem hact
  · intro sc
    rw [hdel]
    dsimp only
    unfold getProductById
    have hmap := findById_map_update store pid
      (fun q => { q with isActive := false }) (fun r => rfl)
    rw [hmap, hf]
    rfl
  · intro ownerId newId ts data hsku
    rw [hdel]
    dsimp only
    have hpmem : p ∈ store := List.mem_of_find?_eq_some hf
    have himg : (if p.id == pid then { p with isActive := false } else p) ∈
        store.map (fun q => if q.id == pid then { q with isActive := false } else q) :=
      List.mem_map_of_mem _ hpmem
    have hysku : (if p.id == pid then { p with isActive := false } else p).sku
        = upper data.sku := by
      have hyp : (if p.id == pid then { p with isActive := false } else p).sku
          = p.sku := by
        by_cases hpidq : (p.id == pid) = true
        · rw [if_pos hpidq]
        · rw [if_neg hpidq]
      rw [hyp, hinv p hpmem, hsku]
    have hsome : (findBySku (store.map
        (fun q => if q.id == pid then { q with isActive := false } else q))
        data.sku).isSome := by
      rw [findBySku, List.find?_isSome]
      exact ⟨_, himg, beq_iff_eq.mpr hysku⟩
    unfold createProduct
    cases hfind : findBySku (store.map
        (fun q => if q.id == pid then { q with isActive := false } else q))
        data.sku with
    | none => rw [hfind] at hsome; simp at hsome
    | some q => rfl

/-- Witness for C5: deleting sampleP as its owner succeeds; afterwards the
id is invisible even to an unscoped (admin) lookup, and SKU "abc-1" is
still rejected. -/
theorem c5_softDelete_witness :
    (deleteProduct [sampleP] "p1" "u1").2 = .ok true ∧
    getProductById (deleteProduct [sampleP] "p1" "u1").1 "p1" none = none ∧
    createProduct (deleteProduct [sampleP] "p1" "u1").1 "u2" "p9" 3 sampleReq =
      ((deleteProduct [sampleP] "p1" "u1").1,
       .error "Product with this SKU already exists") :=
  ⟨(c5_softDelete [sampleP] "p1" "u1" sampleP rfl
      (by intro q hq; simp at hq; subst hq; rfl)).1,
   (c5_softDelete [sampleP] "p1" "u1" sampleP rfl
      (by intro q hq; simp at hq; subst hq; rfl)).2.2.2.1 none,
   (c5_softDelete [sampleP] "p1" "u1" sampleP rfl
      (by intro q hq; simp at hq; subst hq; rfl)).2.2.2.2 "u2" "p9" 3
      sampleReq (by decide)⟩

/-- C6 counterexample: resubmitting sampleP's own SKU "ABC-1" spelled
"abc-1" — case-insensitively equal to its own SKU and colliding with no
other product — makes updateProduct fail with the duplicate-SKU error,
where the claim requires such a patch not to fail. -/
theorem c6_updateProduct_counterexample :
    upper "abc-1" = upper "ABC-1" ∧ "abc-1" ≠ "ABC-1" ∧
    updateProduct [sampleP] "p1" "u1" { sku := some "abc-1" } =
      ([sampleP], .error "Product with this SKU already exists") :=
  ⟨rfl, by decide, rfl⟩

/-- C6 (amended): for an owner-visible product, updateProduct fails with
the duplicate-SKU error exactly when patch.sku is a non-empty string that
differs character-for-character from the current stored SKU and some
stored product — possibly this very product, when the new spelling differs
only in letter case — has SKU equal to upper(patch.sku); in every other
case (no sku in the patch, empty sku, identical-case resubmission, or no
such holder) the partial update is applied. -/
theorem c6_updateProduct (store : List Product) (pid uid : String)
    (patch : UpdateProductRequest) (p : Product)
    (hp : getProductById store pid (some uid) = some p) :
    (∀ s, patch.sku = some s → s ≠ "" → s ≠ p.sku →
      ((∃ q ∈ store, q.sku = upper s) →
        updateProduct store pid uid patch =
          (store, .error "Product with this SKU already exists")) ∧
      ((∀ q ∈ store, q.sku ≠ upper s) →
        updateProduct store pid uid patch =
          ((repoUpdate store pid patch.toUpdate).1,
           .ok (repoUpdate store pid patch.toUpdate).2))) ∧
    (patch.sku = none ∨ patch.sku = some "" ∨ patch.sku = some p.sku →
      updateProduct store pid uid patch =
        ((repoUpdate store pid patch.toUpdate).1,
         .ok (repoUpdate store pid patch.toUpdate).2)) := by
  constructor
  · intro s hsome hne hnesku
    have hc1 : (s != "") = true := bne_iff_ne.mpr hne
    have hc2 : (s != p.sku) = true := bne_iff_ne.mpr hnesku
    constructor
    · rintro ⟨q, hq, hqsku⟩
      have hb : (findBySku store s).isSome = true := by
        rw [findBySku, List.find?_isSome]
        exact ⟨q, hq, beq_iff_eq.mpr hqsku⟩
      unfold updateProduct
      rw [hp]
      dsimp only
      rw [hsome]
      simp only [Option.getD_some]
      simp [hc1, hc2, hb]
    · intro hnoq
      have hnone : findBySku store s = none := by
        rw [findBySku, List.find?_eq_none]
        intro x hx
        simp only [beq_iff_eq]
        exact hnoq x hx
      unfold updateProduct
      rw [hp]
      dsimp only
      rw [hsome]
      simp only [Option.getD_some]
      simp [hc1, hc2, hnone]
  · intro hcase
    unfold updateProduct
    rw [hp]
    dsimp only
    rcases hcase with h | h | h
    · rw [h]
      rfl
    · rw [h]
      rfl
    · rw [h]
      dsimp only
      have hx : (p.sku != p.sku) = false := by simp
      simp [hx]

/-- Witness for C6 (amended): updating sampleP's SKU to "xyz-9" collides
with sampleQ and fails; resubmitting its own SKU in identical case
succeeds. -/
theorem c6_updateProduct_witness :
    updateProduct [sampleP, sampleQ] "p1" "u1" { sku := some "xyz-9" } =
      ([sampleP, sampleQ], .error "Product with this SKU already exists") ∧
    updateProduct [sampleP] "p1" "u1" { sku := some "ABC-1" } =
      ((repoUpdate [sampleP] "p1"
          (UpdateProductRequest.toUpdate { sku := some "ABC-1" })).1,
       .ok (repoUpdate [sampleP] "p1"
          (UpdateProductRequest.toUpdate { sku := some "ABC-1" })).2) :=
  ⟨((c6_updateProduct [sampleP, sampleQ] "p1" "u1" { sku := some "xyz-9" }
      sampleP rfl).1 "xyz-9" rfl (by decide) (by decide)).1
      ⟨sampleQ, by simp, by decide⟩,
   (c6_updateProduct [sampleP] "p1" "u1" { sku := some "ABC-1" }
      sampleP rfl).2 (Or.inr (Or.inr rfl))⟩

/-- C7: the code of changePassword resolves the account by querying the
user store for the empty-string email instead of using userId. Evaluated
at a store holding exactly the user identified by userId, whose stored
hash matches currentPassword, the call fails with the user-not-found
error and stores no new hash — the claim requires it to succeed and
replace the hash. -/
theorem c7_changePassword_bug :
    sampleCompare sampleUser.password "secret123" = true ∧
    changePassword sampleCompare (fun s => s) [sampleUser] "u1"
        "secret123" "newpass9" =
      ([sampleUser], .error "User not found") :=
  ⟨rfl, rfl⟩

/-- C8: the unknown-email and wrong-password failures of login carry one
and the same error message; a deactivated account fails with the
deactivation message; on success the last-login timestamp is stamped on
every stored document with the user's id and a sanitized user (the
password-free record) plus token is returned. -/
theorem c8_login (compare : String → String → Bool) (users : List User)
    (now : Nat) (email password : String) :
    (findByEmailWithPassword users email = none →
      login compare users now email password =
        (users, .error "Invalid email or password")) ∧
    (∀ u, findByEmailWithPassword users email = some u →
      (u.isActive = false →
        login compare users now email password =
          (users, .error "Account is deactivated. Please contact support")) ∧
      (u.isActive = true → compare u.password password = false →
        login compare users now email password =
          (users, .error "Invalid email or password")) ∧
      (u.isActive = true → compare u.password password = true →
        login compare users now email password =
          ((updateLastLogin users u.id now).1,
           .ok { user := sanitizeUser u, token := generateToken u }) ∧
        ∀ v ∈ (updateLastLogin users u.id now).1, v.id = u.id →
          v.lastLoginAt = some now)) := by
  constructor
  · intro h
    unfold login
    rw [h]
  · intro u hu
    refine ⟨?_, ?_, ?_⟩
    · intro hin
      unfold login
      rw [hu]
      dsimp only
      simp [hin]
    · intro ha hc
      unfold login
      rw [hu]
      dsimp only
      simp [ha, hc]
    · intro ha hc
      constructor
      · unfold login
        rw [hu]
        dsimp only
        simp [ha, hc]
      · intro v hv hvid
        unfold updateLastLogin at hv
        cases hfind : users.find? (fun w => w.id == u.id) with
        | none =>
          rw [List.find?_eq_none] at hfind
          exact absurd (beq_iff_eq.mpr (rfl : u.id = u.id))
            (by simpa using hfind u (List.mem_of_find?_eq_some hu))
        | some w =>
          rw [hfind] at hv
          dsimp only at hv
          obtain ⟨y, hy, hxy⟩ := List.mem_map.mp hv
          by_cases hyid : (y.id == u.id) = true
          · rw [if_pos hyid] at hxy
            rw [← hxy]
          · rw [if_neg hyid] at hxy
            subst hxy
            exact absurd (beq_iff_eq.mpr hvid) hyid

/-- Witness for C8: with sampleUser stored, a wrong password and an
unknown email both yield the identical invalid-credentials result, and
the correct credentials log in. -/
theorem c8_login_witness :
    login sampleCompare [sampleUser] 42 "a@x.com" "wrongpw" =
      ([sampleUser], .error "Invalid email or password") ∧
    login sampleCompare [sampleUser] 42 "missing@x.com" "secret123" =
      ([sampleUser], .error "Invalid email or password") ∧
    login sampleCompare [sampleUser] 42 "a@x.com" "secret123" =
      ((updateLastLogin [sampleUser] "u1" 42).1,
       .ok { user := sanitizeUser sampleUser,
             token := generateToken sampleUser }) :=
  ⟨((c8_login sampleCompare [sampleUser] 42 "a@x.com" "wrongpw").2
      sampleUser rfl).2.1 rfl rfl,
   (c8_login sampleCompare [sampleUser] 42 "missing@x.com" "secret123").1 rfl,
   (((c8_login sampleCompare [sampleUser] 42 "a@x.com" "secret123").2
      sampleUser rfl).2.2 rfl rfl).1⟩

/-- C9: bulkUpdateStock applies updateStock to the entries sequentially in
list order — a successful head step recurses on the updated store — and it
is not atomic: when the entry after a successful prefix fails, the prefix
updates remain applied (the result store is the post-prefix store, which
the failing updateStock left untouched) and the remaining entries are not
attempted (the result does not depend on them). -/
theorem c9_bulkSequential :
    (∀ (store : List Product) (e : StockUpdate) (rest : List StockUpdate)
        (scope : Option String) (s1 : List Product) (r : Option Product),
      updateStock store e.productId e.quantity scope = (s1, .ok r) →
      bulkUpdateStock store (e :: rest) scope = bulkUpdateStock s1 rest scope) ∧
    (∀ (store : List Product) (pre : List StockUpdate) (e : StockUpdate)
        (post : List StockUpdate) (scope : Option String) (s1 : List Product),
      bulkUpdateStock store pre scope = (s1, .ok ()) →
      ∀ m : String, (updateStock s1 e.productId e.quantity scope).2 = .error m →
      bulkUpdateStock store (pre ++ e :: post) scope = (s1, .error m)) := by
  constructor
  · intro store e rest scope s1 r h
    conv_lhs => unfold bulkUpdateStock
    rw [h]
  · intro store pre
    induction pre generalizing store with
    | nil =>
      intro e post scope s1 h m hm
      have hs : store = s1 := by
        unfold bulkUpdateStock at h
        exact congrArg Prod.fst h
      subst hs
      rw [List.nil_append]
      unfold bulkUpdateStock
      rw [updateStock_error_store hm]
    | cons a pre ih =>
      intro e post scope s1 h m hm
      rw [List.cons_append]
      unfold bulkUpdateStock at h ⊢
      cases hu : updateStock store a.productId a.quantity scope with
      | mk s2 r2 =>
        cases r2 with
        | error me =>
          rw [hu] at h
          dsimp only at h
          exact absurd h (by simp)
        | ok rr =>
          rw [hu] at h
          dsimp only at h ⊢
          exact ih s2 e post scope s1 h m hm

/-- Witness for C9: on sampleP (quantity 10), the batch
[set 3, set -1, set 9] applies the first entry, fails on the second with
the negative-quantity error, and never attempts the third: the final
store holds quantity 3. -/
theorem c9_bulkSequential_witness :
    bulkUpdateStock [sampleP]
        [{ productId := "p1", quantity := 3 },
         { productId := "p1", quantity := -1 },
         { productId := "p1", quantity := 9 }] none =
      ([{ sampleP with quantity := 3 }],
       .error "Quantity cannot be negative") :=
  c9_bulkSequential.2 [sampleP] [{ productId := "p1", quantity := 3 }]
    { productId := "p1", quantity := -1 }
    [{ productId := "p1", quantity := 9 }] none
    [{ sampleP with quantity := 3 }] rfl
    "Quantity cannot be negative" rfl

end Inventory
